import Mathlib

/-!
# Verification of the Rabbit Air protocol client (`rabbitair`)

Shallow embedding of the protocol/session layer of the `rabbitair` Python
library: the request/response correlation loop, the timestamp handshake and
session teardown logic of `Client.command`, the `set_state` input validation,
the TCP length-prefixed framing, the UDP retry loop, and the AES-CBC/PKCS#7
crypto framing.

Conventions of the embedding:
* Decoded JSON values are modelled by the inductive type `JVal`; a JSON
  object is an association list of string keys (Python `dict` from
  `json.loads` has unique keys, looked up by first occurrence).
* Python byte strings are `List Nat` (each entry a byte value).
* The wall clock (`time.clock_gettime(CLOCK_BOOTTIME)`, a float) is modelled
  as a rational number; Python's `round` (banker's rounding, half to even)
  is modelled exactly by `pyRound`.
* Network effects are oracles: the outcome of each transport exchange is a
  parameter of the model, and the model records the observable actions
  (connecting, handing a request to the transport) in an event trace.
* The AES block operation is supplied by the external `cryptography`
  library; it is modelled as an abstract block function together with its
  inverse, while the CBC chaining, the PKCS#7 padding and the IV placement
  implemented around it are modelled concretely.
-/

namespace RabbitAir

/-- A decoded JSON value, as produced by `json.loads`. -/
inductive JVal where
  | num (n : Int)
  | bool (b : Bool)
  | str (s : String)
  | null
  | arr (elems : List JVal)
  | obj (fields : List (String × JVal))

/-- The JSON key `id`. -/
def idKey : String := "id"

/-- The JSON key `cmd`. -/
def cmdKey : String := "cmd"

/-- The JSON key `ts`. -/
def tsKey : String := "ts"

/-- The JSON key `data`. -/
def dataKey : String := "data"

/-- The JSON key `error`. -/
def errorKey : String := "error"

/-- Python truthiness of a decoded JSON value (`if response.get("error"):`). -/
def truthy : JVal → Bool
  | .num n => n != 0
  | .bool b => b
  | .str s => s ≠ ""
  | .null => false
  | .arr elems => !elems.isEmpty
  | .obj fields => !fields.isEmpty

/-- Python `d.get(k)` on a decoded JSON value known to be a dict; `none` when the
key is absent. -/
def getOpt (v : JVal) (k : String) : Option JVal :=
  match v with
  | .obj fields => fields.lookup k
  | _ => none

/-- Outcome of the Python subscript expression `v[k]` for a string key `k`:
a dict yields the value or `KeyError`; every non-dict JSON value
(`list`, `str`, `int`, `float`, `bool`, `None`) raises `TypeError`. -/
inductive Subscript where
  | ok (v : JVal)
  | keyError
  | typeError

/-- Python `v[k]` for a string key on a decoded JSON value. -/
def getItem (v : JVal) (k : String) : Subscript :=
  match v with
  | .obj fields =>
    match fields.lookup k with
    | some x => .ok x
    | none => .keyError
  | _ => .typeError

/-- Python `==` between a decoded JSON value and an `int`
(`response["id"] == request_id`): an `int` compares by value, a `bool`
compares as `0`/`1` (`bool` is an `int` subclass), everything else is
unequal without raising. -/
def pyEqInt (v : JVal) (k : Int) : Bool :=
  match v with
  | .num n => n == k
  | .bool b => (if b then (1 : Int) else 0) == k
  | _ => false

/-- A received blob after the optional decryption step, as seen by
`json.loads`: either the bytes fail to parse (`JSONDecodeError`) or they
parse to some JSON value. -/
inductive Packet where
  | invalid
  | value (v : JVal)

/-- Result of the correlation loop `Client._exchange` on a finite stream of
incoming packets. -/
inductive ExchangeResult where
  | matched (r : JVal)
  | uncaught
  | noResponse

/-- The receive side of `Client._exchange` (client.py lines 118-128): loop
over incoming packets; a `json.JSONDecodeError` or a `KeyError` from
`response["id"]` is caught and the packet discarded; a parsed response whose
id differs from the request id is discarded; a matching id returns the
response.  A `TypeError` from subscripting a non-dict JSON value is *not*
caught and escapes the loop (`uncaught`).  An exhausted stream (`noResponse`)
models a loop that never returns (the datagrams all discarded, the task left
waiting in `recv`). -/
def exchangeLoop (requestId : Int) : List Packet → ExchangeResult
  | [] => .noResponse
  | p :: rest =>
    match p with
    | .invalid => exchangeLoop requestId rest
    | .value v =>
      match getItem v idKey with
      | .ok i => if pyEqInt i requestId then .matched v else exchangeLoop requestId rest
      | .keyError => exchangeLoop requestId rest
      | .typeError => .uncaught

/-- Python's built-in `round` on a real (modelled rational) value: round
half to even. -/
def pyRound (q : ℚ) : Int :=
  let f := ⌊q⌋
  if q - f < 1/2 then f
  else if (1:ℚ)/2 < q - f then f + 1
  else if f % 2 = 0 then f else f + 1

/-! ## Session engine: `Client.command` (client.py lines 130-159)

The network is abstracted by oracles: `ExchOutcome` is what `_exchange`
produced for one request (a matched response, or an exception from the
transport/decryption/correlation loop), `startOk` is whether the lazy
connect succeeds.  The model returns the command result, the mutated
session state, the caller's request dict after the call (Python mutates it
in place), and the trace of observable events. -/

/-- Outcome of one `Client._exchange` call: a matched response, or an
exception raised during the exchange (transport error, timeout, decryption
failure, uncaught `TypeError` in the correlation loop). -/
inductive ExchOutcome where
  | resp (r : JVal)
  | exn

/-- Exceptions escaping `Client._command`/`Client.command`: the device's
explicit `ProtocolError`, or any other exception (generic). -/
inductive CmdErr where
  | protocol
  | generic

/-- Observable actions of one `Client.command` call: entering `_start`
(lazy connect), or initiating an exchange for a serialized request. -/
inductive Event where
  | connect
  | send (req : List (String × JVal))

/-- Session state of a `Client` instance: the `_sock` attribute (`none` =
attribute is `None`; `some true` = open socket; `some false` = socket object
whose file descriptor has been closed), the `_ts_diff` clock offset, and the
`_id` request counter. -/
structure ClientState where
  sock : Option Bool
  tsDiff : Option ℚ
  nextId : Nat

/-- Model of `Client._stop`: close the socket, set `_sock = None`, clear `_ts_diff`.
The request counter is untouched. -/
def stopClient (st : ClientState) : ClientState :=
  { sock := none, tsDiff := none, nextId := st.nextId }

/-- Model of `Client.__exit__`: close the socket if the attribute is set.  The
attribute itself and `_ts_diff` are left unchanged. -/
def exitClient (st : ClientState) : ClientState :=
  match st.sock with
  | none => st
  | some _ => { st with sock := some false }

/-- Python dict assignment `d[k] = v` on the association-list model:
overwrite the first binding of `k` in place, else append a new binding. -/
def dictSet (l : List (String × JVal)) (k : String) (v : JVal) :
    List (String × JVal) :=
  match l with
  | [] => [(k, v)]
  | (k1, v1) :: rest =>
    if k1 = k then (k1, v) :: rest else (k1, v1) :: dictSet rest k v

/-- The internal timestamp query `{"id": n, "cmd": 9}` built by
`Client.command` when no clock offset is known. -/
def tsRequest (n : Nat) : List (String × JVal) :=
  [(idKey, JVal.num (n : Int)), (cmdKey, JVal.num 9)]

/-- Model of `Client._command` given the `_exchange` outcome: an exchange exception
propagates; a matched response with a truthy `error` value raises
`ProtocolError`; otherwise the response is returned. -/
def runCmd : ExchOutcome → Except CmdErr JVal
  | .exn => .error .generic
  | .resp r =>
    match getOpt r errorKey with
    | some e => if truthy e then .error .protocol else .ok r
    | none => .ok r

/-- Python numeric coercion for `ts - self._clock()`: an `int` is its value,
a `bool` counts as `0`/`1`; any other JSON value raises `TypeError`. -/
def pyToNum : JVal → Option ℚ
  | .num n => some (n : ℚ)
  | .bool b => some (if b then 1 else 0)
  | _ => none

/-- Result of one `Client.command` call: outcome, final session state, the
caller's request dict after the call, and the event trace. -/
structure CmdOutput where
  result : Except CmdErr JVal
  state : ClientState
  request : List (String × JVal)
  events : List Event

/-- Last two lines of the `try` block of `Client.command`:
`request["id"] = self._next_id(); return await self._command(request)`,
together with the surrounding exception handlers (`ProtocolError` is
re-raised without teardown; any other exception runs `_stop` first). -/
def commandOuter (st : ClientState) (o : ExchOutcome)
    (req : List (String × JVal)) (pre : List Event) : CmdOutput :=
  let req1 := dictSet req idKey (JVal.num (st.nextId : Int))
  let st1 : ClientState := { st with nextId := st.nextId + 1 }
  match runCmd o with
  | .ok r =>
    { result := .ok r, state := st1, request := req1,
      events := pre ++ [Event.send req1] }
  | .error .protocol =>
    { result := .error .protocol, state := st1, request := req1,
      events := pre ++ [Event.send req1] }
  | .error .generic =>
    { result := .error .generic, state := stopClient st1, request := req1,
      events := pre ++ [Event.send req1] }

/-- The timestamp-handling block of `Client.command` (a socket is already
available): when a token is configured and no offset is known, run the
internal `cmd 9` exchange (oracle `o1`), read `response["data"]["ts"]`,
store `offset = ts - clock` and attach `ts` verbatim; when an offset `d` is
known, attach `round(clock + d)`; then run the outer exchange (the next
unused oracle).  Exceptions follow the handlers of `Client.command`:
`ProtocolError` propagates without teardown, everything else runs `_stop`. -/
def commandSynced (hasToken : Bool) (st : ClientState) (clock : ℚ)
    (o1 o2 : ExchOutcome) (req : List (String × JVal)) (pre : List Event) :
    CmdOutput :=
  if hasToken then
    match st.tsDiff with
    | none =>
      let treq := tsRequest st.nextId
      let st1 : ClientState := { st with nextId := st.nextId + 1 }
      let pre1 := pre ++ [Event.send treq]
      match runCmd o1 with
      | .error .protocol =>
        { result := .error .protocol, state := st1, request := req, events := pre1 }
      | .error .generic =>
        { result := .error .generic, state := stopClient st1, request := req, events := pre1 }
      | .ok r =>
        match getItem r dataKey with
        | .ok d =>
          match getItem d tsKey with
          | .ok tsv =>
            match pyToNum tsv with
            | some x =>
              commandOuter { st1 with tsDiff := some (x - clock) } o2
                (dictSet req tsKey tsv) pre1
            | none =>
              { result := .error .generic, state := stopClient st1, request := req,
                events := pre1 }
          | _ =>
            { result := .error .generic, state := stopClient st1, request := req,
              events := pre1 }
        | _ =>
          { result := .error .generic, state := stopClient st1, request := req,
            events := pre1 }
    | some d =>
      commandOuter st o1 (dictSet req tsKey (JVal.num (pyRound (clock + d)))) pre
  else
    commandOuter st o1 req pre

/-- Model of `Client.command` (client.py lines 139-159).  `hasToken` is whether a
shared secret is configured, `clock` the value `self._clock()` would read
during this call, `startOk` whether a lazy connect would succeed, `o1`/`o2`
the outcomes of the first and second `_exchange` performed (at most two
happen).  `if not self._sock:` is false for a closed-but-present socket
object (a `socket.socket` is always truthy), so only `sock = none` triggers
the connect. -/
def command (hasToken : Bool) (st : ClientState) (clock : ℚ) (startOk : Bool)
    (o1 o2 : ExchOutcome) (req : List (String × JVal)) : CmdOutput :=
  match st.sock with
  | none =>
    if startOk then
      commandSynced hasToken { st with sock := some true } clock o1 o2 req
        [Event.connect]
    else
      { result := .error .generic, state := stopClient st, request := req,
        events := [Event.connect] }
  | some _ => commandSynced hasToken st clock o1 o2 req []

/-! ## Command facade: `Client.set_state` (client.py lines 166-244)

The wire enums come from response.py.  `set_state` builds the `data`
mapping field by field in source order, validating the range-checked fields
before any network activity; the model returns the request
`{"cmd": 4, "data": data}` that would be handed to `Client.command`, or the
`ValueError` message, in which case nothing reaches the network. -/

/-- Fan mode (response.py): Auto = 0, Pollen = 1, Manual = 2. -/
inductive Mode where
  | auto | pollen | manual

/-- Wire value of a `Mode` member. -/
def Mode.value : Mode → Int
  | .auto => 0 | .pollen => 1 | .manual => 2

/-- Fan speed (response.py): SuperSilent = 0 … Turbo = 5. -/
inductive Speed where
  | superSilent | silent | low | medium | high | turbo

/-- Wire value of a `Speed` member. -/
def Speed.value : Speed → Int
  | .superSilent => 0 | .silent => 1 | .low => 2
  | .medium => 3 | .high => 4 | .turbo => 5

/-- Auto-mode sensitivity (response.py): High = 0, Medium = 1, Low = 2. -/
inductive Sensitivity where
  | high | medium | low

/-- Wire value of a `Sensitivity` member. -/
def Sensitivity.value : Sensitivity → Int
  | .high => 0 | .medium => 1 | .low => 2

/-- Moodlight setting (response.py): Off = 0, On = 1, Auto = 2,
Preset1 = 2 (an alias of Auto in the Python enum), Preset2 = 3,
Preset3 = 4. -/
inductive Moodlight where
  | off | on | auto | preset1 | preset2 | preset3

/-- Wire value of a `Moodlight` member (`preset1` aliases `auto`). -/
def Moodlight.value : Moodlight → Int
  | .off => 0 | .on => 1 | .auto => 2 | .preset1 => 2
  | .preset2 => 3 | .preset3 => 4

/-- Lights setting (response.py): Off = 0, On = 1, Auto = 2. -/
inductive Lights where
  | off | on | auto

/-- Wire value of a `Lights` member. -/
def Lights.value : Lights → Int
  | .off => 0 | .on => 1 | .auto => 2

/-- Timer mode (response.py): Off = 0, On = 1, Schedule = 2. -/
inductive TimerMode where
  | off | on | schedule

/-- Wire value of a `TimerMode` member. -/
def TimerMode.value : TimerMode → Int
  | .off => 0 | .on => 1 | .schedule => 2

/-- The wire key `power`. -/
def powerKey : String := "power"

/-- The wire key `mode`. -/
def modeKey : String := "mode"

/-- The wire key `speed`. -/
def speedKey : String := "speed"

/-- The wire key `sensitivity`. -/
def sensitivityKey : String := "sensitivity"

/-- The wire key `ionizer`. -/
def ionizerKey : String := "ionizer"

/-- The wire key `moodlight`. -/
def moodlightKey : String := "moodlight"

/-- The wire key `filter_cleaning`. -/
def filterCleaningKey : String := "filter_cleaning"

/-- The wire key `filter_replacement`. -/
def filterReplacementKey : String := "filter_replacement"

/-- The wire key `filter_life`. -/
def filterLifeKey : String := "filter_life"

/-- The wire key `filter_timer`. -/
def filterTimerKey : String := "filter_timer"

/-- The wire key `all_light_off` (set from the `lights` argument). -/
def allLightOffKey : String := "all_light_off"

/-- The wire key `color`. -/
def colorKey : String := "color"

/-- The wire key `lsens_ctl` (set from the `light_sensor_ctl` argument). -/
def lsensCtlKey : String := "lsens_ctl"

/-- The wire key `filter_ctl`. -/
def filterCtlKey : String := "filter_ctl"

/-- The wire key `buzzer`. -/
def buzzerKey : String := "buzzer"

/-- The wire key `lock` (set from the `child_lock` argument). -/
def lockKey : String := "lock"

/-- The wire key `timer_mode`. -/
def timerModeKey : String := "timer_mode"

/-- The wire key `timer`. -/
def timerKey : String := "timer"

/-- The wire key `schedule`. -/
def scheduleKey : String := "schedule"

/-- The `ValueError` message for `filter_life` (the source text says 0-1440
although the checked bound is 525600). -/
def msgFilterLife : String := "The filter life value must be in the range 0-1440"

/-- The `ValueError` message for `filter_timer` (same stale 0-1440 text). -/
def msgFilterTimer : String := "The filter timer value must be in the range 0-1440"

/-- The `ValueError` message for a color list of the wrong length. -/
def msgColorLen : String := "The color length must be 9"

/-- The `ValueError` message for a color value out of range. -/
def msgColorRange : String := "The color values must be in the range 0-40"

/-- The `ValueError` message for `timer`. -/
def msgTimer : String := "The timer value must be in the range 0-1440"

/-- The `ValueError` message for a schedule of the wrong length. -/
def msgScheduleLen : String := "The schedule length must be 24"

/-- The `ValueError` message for a bad schedule character. -/
def msgScheduleVal : String := "The schedule values must be 0-5,A"

/-- The character `0`. -/
def zeroChar : Char := '0'

/-- The character `5`. -/
def fiveChar : Char := '5'

/-- The character `A`. -/
def aChar : Char := 'A'

/-- The arguments of `Client.set_state`, all optional. -/
structure SetStateArgs where
  power : Option Bool := none
  mode : Option Mode := none
  speed : Option Speed := none
  sensitivity : Option Sensitivity := none
  ionizer : Option Bool := none
  moodlight : Option Moodlight := none
  filter_cleaning : Option Bool := none
  filter_replacement : Option Bool := none
  filter_life : Option Int := none
  filter_timer : Option Int := none
  lights : Option Lights := none
  color : Option (List Int) := none
  light_sensor_ctl : Option Bool := none
  filter_ctl : Option Bool := none
  buzzer : Option Bool := none
  child_lock : Option Bool := none
  timer_mode : Option TimerMode := none
  timer : Option Int := none
  schedule : Option String := none

/-- Model of `if x is not None: data[k] = f(x)` for an unvalidated field: the entry
added to the fresh-keyed `data` dict, if any. -/
def optEntry {α : Type} (k : String) (f : α → JVal) : Option α → List (String × JVal)
  | none => []
  | some x => [(k, f x)]

/-- The unvalidated fields preceding `filter_life` in source order:
`power`, `mode`, `speed`, `sensitivity`, `ionizer`, `moodlight`,
`filter_cleaning`, `filter_replacement`. -/
def plainFieldsA (a : SetStateArgs) : List (String × JVal) :=
  optEntry powerKey JVal.bool a.power ++
  optEntry modeKey (fun m => JVal.num m.value) a.mode ++
  optEntry speedKey (fun m => JVal.num m.value) a.speed ++
  optEntry sensitivityKey (fun m => JVal.num m.value) a.sensitivity ++
  optEntry ionizerKey JVal.bool a.ionizer ++
  optEntry moodlightKey (fun m => JVal.num m.value) a.moodlight ++
  optEntry filterCleaningKey JVal.bool a.filter_cleaning ++
  optEntry filterReplacementKey JVal.bool a.filter_replacement

/-- The `filter_life` block: reject values outside `[0, 525600]`. -/
def filterLifeField : Option Int → Except String (List (String × JVal))
  | none => .ok []
  | some v =>
    if v < 0 ∨ 525600 < v then .error msgFilterLife
    else .ok [(filterLifeKey, JVal.num v)]

/-- The `filter_timer` block: reject values outside `[0, 525600]`. -/
def filterTimerField : Option Int → Except String (List (String × JVal))
  | none => .ok []
  | some v =>
    if v < 0 ∨ 525600 < v then .error msgFilterTimer
    else .ok [(filterTimerKey, JVal.num v)]

/-- The `color` block: the list must have exactly 9 entries, each in
`[0, 40]` (length first, then the values, as in the source loop). -/
def colorField : Option (List Int) → Except String (List (String × JVal))
  | none => .ok []
  | some c =>
    if c.length ≠ 9 then .error msgColorLen
    else if c.any (fun v => decide (v < 0) || decide (40 < v)) then .error msgColorRange
    else .ok [(colorKey, JVal.arr (c.map JVal.num))]

/-- The unvalidated fields between `color` and `timer` in source order:
`light_sensor_ctl`, `filter_ctl`, `buzzer`, `child_lock`, `timer_mode`. -/
def plainFieldsB (a : SetStateArgs) : List (String × JVal) :=
  optEntry lsensCtlKey JVal.bool a.light_sensor_ctl ++
  optEntry filterCtlKey JVal.bool a.filter_ctl ++
  optEntry buzzerKey JVal.bool a.buzzer ++
  optEntry lockKey JVal.bool a.child_lock ++
  optEntry timerModeKey (fun m => JVal.num m.value) a.timer_mode

/-- The `timer` block: reject values outside `[0, 1440]`. -/
def timerField : Option Int → Except String (List (String × JVal))
  | none => .ok []
  | some v =>
    if v < 0 ∨ 1440 < v then .error msgTimer
    else .ok [(timerKey, JVal.num v)]

/-- The `schedule` block: the string must have exactly 24 characters, each
one of `0`-`5` or `A` (`(v < "0" or v > "5") and v != "A"` rejects). -/
def scheduleField : Option String → Except String (List (String × JVal))
  | none => .ok []
  | some s =>
    if s.length ≠ 24 then .error msgScheduleLen
    else if s.data.any (fun v =>
        (decide (v < zeroChar) || decide (fiveChar < v)) && v != aChar) then
      .error msgScheduleVal
    else .ok [(scheduleKey, JVal.str s)]

/-- Model of `Client.set_state`: build the `data` mapping in source order, failing
with the `ValueError` message of the first violated validation; on success
return the request `{"cmd": 4, "data": data}` that is handed to
`Client.command`.  A `ValueError` result means nothing was handed to the
session engine: zero network activity, session state untouched. -/
def set_state (a : SetStateArgs) : Except String (List (String × JVal)) := do
  let d1 := plainFieldsA a
  let d2 ← filterLifeField a.filter_life
  let d3 ← filterTimerField a.filter_timer
  let d4 := optEntry allLightOffKey (fun m => JVal.num m.value) a.lights
  let d5 ← colorField a.color
  let d6 := plainFieldsB a
  let d7 ← timerField a.timer
  let d8 ← scheduleField a.schedule
  pure [(cmdKey, JVal.num 4),
        (dataKey, JVal.obj (d1 ++ d2 ++ d3 ++ d4 ++ d5 ++ d6 ++ d7 ++ d8))]

/-- Whether an `Except` computation failed. -/
def isErr {ε α : Type} : Except ε α → Bool
  | .error _ => true
  | .ok _ => false

/-! ## TCP transport (tcp.py)

A byte stream is a `List Nat` (all bytes the peer sends before closing the
connection).  The kernel's chunking of `loop.sock_recv(sock, n)` is a
schedule: on the i-th call the kernel has `sched[i] + 1` bytes ready (always
at least one while the stream is not exhausted; a zero-length chunk happens
exactly at end of stream, which is how Python signals EOF). -/

/-- Model of `struct.pack("<H", n)`: two little-endian bytes (defined for `n` below
`0x10000`, where `struct.pack` does not raise). -/
def le16 (n : Nat) : List Nat := [n % 256, n / 256 % 256]

/-- Model of `TcpClient._sendmsg`: frame the payload with its 2-byte little-endian
length. -/
def sendmsg (data : List Nat) : List Nat := le16 data.length ++ data

/-- Model of `TcpClient._recvall` (tcp.py lines 21-32): accumulate chunks until
`size` bytes are read; an empty chunk (end of stream) breaks the loop and
the final length check raises `NetworkError` (modelled `.error ()`).  On
success return the bytes read and the rest of the stream. -/
def recvall (sched : List Nat) (acc : List Nat) (stream : List Nat)
    (size : Nat) : Except Unit (List Nat × List Nat) :=
  if acc.length < size then
    if stream = [] then .error ()
    else
      let m := min (size - acc.length) (min (sched.headD 0 + 1) stream.length)
      recvall sched.tail (acc ++ stream.take m) (stream.drop m) size
  else .ok (acc, stream)
termination_by stream.length
decreasing_by
  simp only [List.length_drop]
  rename_i hlt hs
  have h1 : 1 ≤ min (size - acc.length) (min (sched.headD 0 + 1) stream.length) := by
    have : 0 < stream.length := List.length_pos.mpr hs
    omega
  omega

/-- Model of `TcpClient._recvmsg` (tcp.py lines 34-38): read exactly 2 header bytes,
decode the little-endian length, then read exactly that many payload
bytes. -/
def recvmsg (sched1 sched2 : List Nat) (stream : List Nat) :
    Except Unit (List Nat × List Nat) :=
  match recvall sched1 [] stream 2 with
  | .error e => .error e
  | .ok (hd, rest) => recvall sched2 [] rest (hd.getD 0 0 + 256 * hd.getD 1 0)

/-! ## UDP transport (udp.py) -/

namespace UdpClient

/-- Constant `UdpClient.retry_count`. -/
def retry_count : Nat := 3

/-- Constant `UdpClient.timeout` (seconds, per attempt). -/
def timeout : ℚ := 2

end UdpClient

/-- Constant `TcpClient.timeout` (seconds, for the whole exchange). -/
def TcpClient.timeout : ℚ := 5

/-- Outcome of one `asyncio.wait_for(super()._exchange(...), timeout)`
attempt: a matched response, an `asyncio.TimeoutError` (tagged so distinct
timeout exceptions can be told apart), or any other exception. -/
inductive AttemptOutcome where
  | ok (r : JVal)
  | timeout (tag : Nat)
  | exn

/-- Result of `UdpClient._exchange`: the response; the *last* caught
timeout error re-raised after the loop; a non-timeout exception propagating
out of an attempt; or the unbound-local `raise error` reached with no
attempt made (only possible if `retry_count` were 0). -/
inductive UdpResult where
  | ok (r : JVal)
  | timeoutErr (tag : Nat)
  | exn
  | unbound

/-- The retry loop of `UdpClient._exchange` (udp.py lines 30-38): attempt
`i` runs `f i`; a timeout is caught into the local `error` and the loop
continues, re-sending the same already-serialized `data`; any other
exception propagates at once; after the last attempt the stored timeout is
raised.  Also returns the list of datagrams handed to the transport. -/
def udpExchangeGo (f : Nat → AttemptOutcome) (data : List Nat) :
    Nat → Nat → Option Nat → UdpResult × List (List Nat)
  | _, 0, last =>
    (match last with
     | some t => .timeoutErr t
     | none => .unbound,
     [])
  | i, rem + 1, _ =>
    match f i with
    | .ok r => (.ok r, [data])
    | .exn => (.exn, [data])
    | .timeout t =>
      let rest := udpExchangeGo f data (i + 1) rem (some t)
      (rest.1, data :: rest.2)

/-- Model of `UdpClient._exchange` on already-serialized request bytes `data`. -/
def udpExchange (f : Nat → AttemptOutcome) (data : List Nat) :
    UdpResult × List (List Nat) :=
  udpExchangeGo f data 0 UdpClient.retry_count none

/-! ## Crypto framer: `Client._encrypt` / `Client._decrypt`
(client.py lines 89-106)

The AES block operation on 16-byte blocks is supplied by the external
`cryptography` library; it is a parameter `E` (with inverse `D`) of the
model.  The CBC chaining, the PKCS#7 padding and the placement of the IV
*after* the ciphertext are modelled concretely.  `os.urandom(16)` is
modelled by passing the IV as a parameter. -/

/-- Bytewise xor of two blocks. -/
def xorBlock (a b : List Nat) : List Nat := List.zipWith Nat.xor a b

/-- Split a byte string into 16-byte blocks (the AES block size; the last
chunk is shorter if the length is not a multiple of 16). -/
def chunks16 (l : List Nat) : List (List Nat) :=
  if l = [] then [] else l.take 16 :: chunks16 (l.drop 16)
termination_by l.length
decreasing_by
  rename_i h
  have : 0 < l.length := List.length_pos.mpr h
  simp only [List.length_drop]
  omega

/-- CBC encryption on a list of plaintext blocks: each block is xored with
the previous ciphertext block (initially the IV) and passed through the
block cipher. -/
def cbcEncBlocks (E : List Nat → List Nat) (iv : List Nat) :
    List (List Nat) → List (List Nat)
  | [] => []
  | p :: ps =>
    let c := E (xorBlock p iv)
    c :: cbcEncBlocks E c ps

/-- CBC decryption on a list of ciphertext blocks. -/
def cbcDecBlocks (D : List Nat → List Nat) (iv : List Nat) :
    List (List Nat) → List (List Nat)
  | [] => []
  | c :: cs => xorBlock (D c) iv :: cbcDecBlocks D c cs

/-- PKCS#7 padding to the 128-bit block size: append `p` bytes of value
`p` where `p = 16 - len % 16` (always between 1 and 16). -/
def pkcs7pad (m : List Nat) : List Nat :=
  let p := 16 - m.length % 16
  m ++ List.replicate p p

/-- PKCS#7 unpadding as checked by the `cryptography` library: the input
must be a nonempty multiple of 16 bytes, its last byte `p` must lie in
`[1, 16]`, and the last `p` bytes must all equal `p`; those bytes are
removed.  `none` models the `ValueError` for invalid padding. -/
def pkcs7unpad (m : List Nat) : Option (List Nat) :=
  if m.length % 16 = 0 ∧ m ≠ [] then
    if 1 ≤ m.getLastD 0 ∧ m.getLastD 0 ≤ 16 ∧
        (m.drop (m.length - m.getLastD 0)).all (fun x => x == m.getLastD 0) then
      some (m.take (m.length - m.getLastD 0))
    else none
  else none

/-- Model of `Client._encrypt`: PKCS#7-pad the message, CBC-encrypt it under the
block cipher `E` with the fresh IV, and append the IV *after* the
ciphertext. -/
def clientEncrypt (E : List Nat → List Nat) (iv msg : List Nat) : List Nat :=
  (cbcEncBlocks E iv (chunks16 (pkcs7pad msg))).flatten ++ iv

/-- Model of `Client._decrypt`: the last 16 bytes of the input (`msg[-16:]`) are the
IV, the rest (`msg[:-16]`) the ciphertext; CBC-decrypt and remove the
PKCS#7 padding. -/
def clientDecrypt (D : List Nat → List Nat) (msg : List Nat) : Option (List Nat) :=
  let iv := msg.drop (msg.length - 16)
  let ct := msg.take (msg.length - 16)
  pkcs7unpad (cbcDecBlocks D iv (chunks16 ct)).flatten

/-! ## Lemmas about the crypto framer -/

theorem xorBlock_length (a b : List Nat) :
    (xorBlock a b).length = min a.length b.length :=
  List.length_zipWith Nat.xor a b

theorem xorBlock_cancel (a : List Nat) : ∀ b : List Nat, a.length ≤ b.length →
    xorBlock (xorBlock a b) b = a := by
  induction a with
  | nil => intro b _; rfl
  | cons x xs ih =>
    intro b h
    cases b with
    | nil => simp at h
    | cons y ys =>
      simp only [xorBlock, List.zipWith_cons_cons] at *
      rw [show (x.xor y).xor y = x from Nat.xor_cancel_right y x]
      exact congrArg (x :: ·) (ih ys (by simpa using h))

theorem chunks16_nil : chunks16 [] = [] := by
  rw [chunks16]; simp

theorem chunks16_cons16 (b l : List Nat) (hb : b.length = 16) :
    chunks16 (b ++ l) = b :: chunks16 l := by
  rw [chunks16]
  have hne : b ++ l ≠ [] := by
    intro h
    have := congrArg List.length h
    simp [hb] at this
  rw [if_neg hne, ← hb, List.take_left, List.drop_left]

theorem flatten_chunks16 (l : List Nat) : (chunks16 l).flatten = l := by
  induction l using chunks16.induct with
  | case1 => rw [chunks16]; simp
  | case2 l h ih => rw [chunks16]; simp [h, ih]

theorem chunks16_all_len (l : List Nat) (hmod : l.length % 16 = 0) :
    ∀ b ∈ chunks16 l, b.length = 16 := by
  induction l using chunks16.induct with
  | case1 => rw [chunks16]; simp
  | case2 l h ih =>
    rw [chunks16, if_neg h]
    have hlen : 0 < l.length := List.length_pos.mpr h
    have h16 : 16 ≤ l.length := by omega
    intro b hb
    rcases List.mem_cons.mp hb with hb | hb
    · subst hb; simp [List.length_take]; omega
    · exact ih (by simp [List.length_drop]; omega) b hb

theorem chunks16_flatten (bs : List (List Nat))
    (h : ∀ b ∈ bs, b.length = 16) : chunks16 bs.flatten = bs := by
  induction bs with
  | nil => simpa using chunks16_nil
  | cons b rest ih =>
    rw [List.flatten_cons, chunks16_cons16 _ _ (h b (List.mem_cons_self b rest))]
    exact congrArg (b :: ·) (ih fun x hx => h x (List.mem_cons_of_mem b hx))

theorem cbcEncBlocks_len (E : List Nat → List Nat)
    (hE : ∀ b : List Nat, b.length = 16 → (E b).length = 16) :
    ∀ (bs : List (List Nat)) (iv : List Nat), iv.length = 16 →
      (∀ b ∈ bs, b.length = 16) →
      ∀ c ∈ cbcEncBlocks E iv bs, c.length = 16 := by
  intro bs
  induction bs with
  | nil => intro iv _ _ c hc; simp [cbcEncBlocks] at hc
  | cons p ps ih =>
    intro iv hiv hbs c hc
    have hp : p.length = 16 := hbs p (List.mem_cons_self p ps)
    have hxor : (xorBlock p iv).length = 16 := by
      rw [xorBlock_length, hp, hiv]; omega
    have hc16 : (E (xorBlock p iv)).length = 16 := hE _ hxor
    simp only [cbcEncBlocks] at hc
    rcases List.mem_cons.mp hc with hc | hc
    · subst hc; exact hc16
    · exact ih _ hc16 (fun x hx => hbs x (List.mem_cons_of_mem p hx)) c hc

theorem cbc_roundtrip (E D : List Nat → List Nat)
    (hE : ∀ b : List Nat, b.length = 16 → (E b).length = 16)
    (hDE : ∀ b : List Nat, b.length = 16 → D (E b) = b) :
    ∀ (bs : List (List Nat)) (iv : List Nat), iv.length = 16 →
      (∀ b ∈ bs, b.length = 16) →
      cbcDecBlocks D iv (cbcEncBlocks E iv bs) = bs := by
  intro bs
  induction bs with
  | nil => intro iv _ _; rfl
  | cons p ps ih =>
    intro iv hiv hbs
    have hp : p.length = 16 := hbs p (List.mem_cons_self p ps)
    have hxor : (xorBlock p iv).length = 16 := by
      rw [xorBlock_length, hp, hiv]; omega
    simp only [cbcEncBlocks, cbcDecBlocks]
    rw [hDE _ hxor, xorBlock_cancel p iv (by omega)]
    exact congrArg (p :: ·)
      (ih _ (hE _ hxor) fun x hx => hbs x (List.mem_cons_of_mem p hx))

theorem pkcs7pad_len (m : List Nat) :
    (pkcs7pad m).length = m.length + (16 - m.length % 16) := by
  show (m ++ List.replicate (16 - m.length % 16) (16 - m.length % 16)).length = _
  simp

theorem pkcs7pad_mod (m : List Nat) : (pkcs7pad m).length % 16 = 0 := by
  rw [pkcs7pad_len]; omega

theorem pkcs7pad_ne (m : List Nat) : pkcs7pad m ≠ [] := by
  intro h
  have hl := congrArg List.length h
  rw [pkcs7pad_len] at hl
  simp at hl
  omega

theorem pkcs7unpad_pad (m : List Nat) : pkcs7unpad (pkcs7pad m) = some m := by
  have hlt : m.length % 16 < 16 := Nat.mod_lt _ (by omega)
  set p := 16 - m.length % 16 with hp
  have hp1 : 1 ≤ p := by omega
  have hp16 : p ≤ 16 := by omega
  have hpad : pkcs7pad m = m ++ List.replicate p p := rfl
  have hrep : (List.replicate p p : List Nat) ≠ [] := by
    intro h
    have hl := congrArg List.length h
    simp at hl
    omega
  have hlast : (pkcs7pad m).getLastD 0 = p := by
    rw [hpad, List.getLastD_eq_getLast?, List.getLast?_append_of_ne_nil m hrep]
    obtain ⟨q, hq⟩ : ∃ q, p = q + 1 := ⟨p - 1, by omega⟩
    rw [hq, List.replicate_succ', List.getLast?_concat]
    rfl
  have hlen : (pkcs7pad m).length = m.length + p := by
    rw [hpad]; simp
  have hsub : (pkcs7pad m).length - p = m.length := by omega
  rw [pkcs7unpad, if_pos ⟨pkcs7pad_mod m, pkcs7pad_ne m⟩, hlast, hsub, if_pos]
  · rw [hpad, List.take_left]
  · refine ⟨hp1, hp16, ?_⟩
    rw [hpad, List.drop_left]
    simp only [List.all_eq_true, List.mem_replicate]
    intro x hx
    exact beq_iff_eq.mpr hx.2

/-- C1: For every byte string `m`, every key of a valid AES length
(16, 24 or 32 bytes) and every 16-byte IV, decrypting the result of
`Client._encrypt` with `Client._decrypt` under the same token returns `m`
exactly.  The AES block permutation of the external `cryptography` library
is abstracted as `E key` with inverse `D key` on 16-byte blocks. -/
theorem encrypt_decrypt_roundtrip (E D : List Nat → List Nat → List Nat)
    (key iv m : List Nat)
    (hkey : key.length = 16 ∨ key.length = 24 ∨ key.length = 32)
    (hiv : iv.length = 16)
    (hE : ∀ b : List Nat, b.length = 16 → (E key b).length = 16)
    (hDE : ∀ b : List Nat, b.length = 16 → D key (E key b) = b) :
    clientDecrypt (D key) (clientEncrypt (E key) iv m) = some m := by
  have hbs : ∀ b ∈ chunks16 (pkcs7pad m), b.length = 16 :=
    chunks16_all_len _ (pkcs7pad_mod m)
  have hcts : ∀ c ∈ cbcEncBlocks (E key) iv (chunks16 (pkcs7pad m)),
      c.length = 16 :=
    cbcEncBlocks_len (E key) hE _ iv hiv hbs
  set cts := cbcEncBlocks (E key) iv (chunks16 (pkcs7pad m)) with hcs
  show clientDecrypt (D key) (cts.flatten ++ iv) = some m
  have hdrop : (cts.flatten ++ iv).length - 16 = cts.flatten.length := by
    simp [List.length_append, hiv]
  rw [clientDecrypt]
  simp only [hdrop, List.take_left, List.drop_left]
  rw [chunks16_flatten cts hcts, hcs,
    cbc_roundtrip (E key) (D key) hE hDE _ iv hiv hbs,
    flatten_chunks16, pkcs7unpad_pad]

/-- Witness for C1 at a 16-byte all-zero key, the identity block
permutation, a concrete IV and the message `[1, 2, 3]`. -/
theorem encrypt_decrypt_roundtrip_witness :
    clientDecrypt ((fun _ b => b) (List.replicate 16 0))
      (clientEncrypt ((fun _ b => b) (List.replicate 16 0))
        (List.replicate 16 7) [1, 2, 3]) = some [1, 2, 3] :=
  encrypt_decrypt_roundtrip (fun _ b => b) (fun _ b => b)
    (List.replicate 16 0) (List.replicate 16 7) [1, 2, 3]
    (Or.inl (by simp)) (by simp) (fun b hb => hb) (fun b _ => rfl)

/-- C8: `Client._encrypt` returns the CBC encryption of the
PKCS#7-padded plaintext with the 16-byte IV concatenated at the *end*: the
last 16 bytes of its output are exactly the IV, and the remaining front is
the CBC ciphertext of the padded message.  `Client._decrypt` splits its
input into the last 16 bytes (IV) and the front (ciphertext), CBC-decrypts
and removes the PKCS#7 padding. -/
theorem encrypt_iv_at_end (E D : List Nat → List Nat) (iv m ct : List Nat)
    (hiv : iv.length = 16) :
    (clientEncrypt E iv m).drop ((clientEncrypt E iv m).length - 16) = iv ∧
    (clientEncrypt E iv m).take ((clientEncrypt E iv m).length - 16) =
      (cbcEncBlocks E iv (chunks16 (pkcs7pad m))).flatten ∧
    clientDecrypt D (ct ++ iv) =
      pkcs7unpad (cbcDecBlocks D iv (chunks16 ct)).flatten := by
  have henc : clientEncrypt E iv m =
      (cbcEncBlocks E iv (chunks16 (pkcs7pad m))).flatten ++ iv := rfl
  have hlen : (clientEncrypt E iv m).length - 16 =
      (cbcEncBlocks E iv (chunks16 (pkcs7pad m))).flatten.length := by
    rw [henc]; simp [hiv]
  refine ⟨?_, ?_, ?_⟩
  · rw [hlen, henc, List.drop_left]
  · rw [hlen, henc, List.take_left]
  · have hct : (ct ++ iv).length - 16 = ct.length := by simp [hiv]
    rw [clientDecrypt]
    simp only [hct, List.take_left, List.drop_left]

/-- Witness for C8 with the identity block cipher, a concrete IV, the
message `[1, 2, 3]` and the ciphertext `[5, 6]`. -/
theorem encrypt_iv_at_end_witness :
    (clientEncrypt (fun b => b) (List.replicate 16 9) [1, 2, 3]).drop
        ((clientEncrypt (fun b => b) (List.replicate 16 9) [1, 2, 3]).length - 16) =
      List.replicate 16 9 ∧
    (clientEncrypt (fun b => b) (List.replicate 16 9) [1, 2, 3]).take
        ((clientEncrypt (fun b => b) (List.replicate 16 9) [1, 2, 3]).length - 16) =
      (cbcEncBlocks (fun b => b) (List.replicate 16 9)
        (chunks16 (pkcs7pad [1, 2, 3]))).flatten ∧
    clientDecrypt (fun b => b) ([5, 6] ++ List.replicate 16 9) =
      pkcs7unpad (cbcDecBlocks (fun b => b) (List.replicate 16 9)
        (chunks16 [5, 6])).flatten :=
  encrypt_iv_at_end (fun b => b) (fun b => b) (List.replicate 16 9)
    [1, 2, 3] [5, 6] (by simp)

/-! ## Lemmas about the TCP transport -/

/-- Lemma: `TcpClient._recvall` reads exactly `size - acc.length` further bytes
when the stream holds that many, independently of the kernel's chunking
schedule, and fails otherwise. -/
theorem recvall_eq (n : Nat) : ∀ stream : List Nat, stream.length ≤ n →
    ∀ (sched acc : List Nat) (size : Nat),
    recvall sched acc stream size =
      if size - acc.length ≤ stream.length then
        .ok (acc ++ stream.take (size - acc.length),
             stream.drop (size - acc.length))
      else .error () := by
  induction n with
  | zero =>
    intro stream hs sched acc size
    have hnil : stream = [] := List.length_eq_zero.mp (Nat.le_zero.mp hs)
    subst hnil
    rw [recvall]
    by_cases h : acc.length < size
    · rw [if_pos h, if_pos rfl, if_neg (by simp; omega)]
    · rw [if_neg h, if_pos (by simp; omega)]
      simp
  | succ n ih =>
    intro stream hs sched acc size
    rw [recvall]
    by_cases hlt : acc.length < size
    · rw [if_pos hlt]
      by_cases hnil : stream = []
      · subst hnil
        rw [if_pos rfl, if_neg (by simp; omega)]
      · rw [if_neg hnil]
        have hpos : 0 < stream.length := List.length_pos.mpr hnil
        set m := min (size - acc.length) (min (sched.headD 0 + 1) stream.length)
          with hm
        have hm1 : 1 ≤ m := by have := hpos; omega
        have hms : m ≤ stream.length := by omega
        have hmk : m ≤ size - acc.length := by omega
        rw [ih _ (by simp [List.length_drop]; omega)]
        have hacc : (acc ++ stream.take m).length = acc.length + m := by
          simp [List.length_take]; omega
        have hdl : (stream.drop m).length = stream.length - m := by
          simp [List.length_drop]
        by_cases hfit : size - acc.length ≤ stream.length
        · rw [if_pos (by omega), if_pos hfit]
          have htk : size - (acc ++ stream.take m).length =
              size - acc.length - m := by omega
          congr 1
          refine Prod.ext ?_ ?_
          · show acc ++ stream.take m ++
                (stream.drop m).take (size - (acc ++ stream.take m).length) =
              acc ++ stream.take (size - acc.length)
            rw [htk, List.append_assoc]
            congr 1
            have hsplit : stream.take (size - acc.length) =
                stream.take m ++ (stream.drop m).take (size - acc.length - m) := by
              rw [← List.take_add]
              congr 1
              omega
            rw [hsplit]
          · show (stream.drop m).drop (size - (acc ++ stream.take m).length) =
              stream.drop (size - acc.length)
            rw [htk, List.drop_drop]
            congr 1
            omega
        · rw [if_neg (by omega), if_neg hfit]
    · rw [if_neg hlt, if_pos (by omega)]
      simp [show size - acc.length = 0 by omega]

/-- If the header read succeeds, `_recvmsg` continues with the payload
read for the decoded length. -/
theorem recvmsg_ok {sched1 sched2 stream : List Nat} {hd rest : List Nat}
    (h : recvall sched1 [] stream 2 = .ok (hd, rest)) :
    recvmsg sched1 sched2 stream =
      recvall sched2 [] rest (hd.getD 0 0 + 256 * hd.getD 1 0) := by
  rw [recvmsg, h]

/-- If the header read fails, `_recvmsg` fails. -/
theorem recvmsg_err {sched1 sched2 stream : List Nat}
    (h : recvall sched1 [] stream 2 = .error ()) :
    recvmsg sched1 sched2 stream = .error () := by
  rw [recvmsg, h]

/-- C6: The TCP transport frames each outbound message with a 2-byte
little-endian length header followed by the payload (`_sendmsg`); on
receive it reads exactly 2 header bytes and then exactly the decoded number
of payload bytes, for every kernel chunking schedule: parsing the stream
produced by framing a message (below the 65536-byte limit of the header)
yields exactly that message with the rest of the stream untouched, and a
stream that ends before the expected byte count raises `NetworkError`,
never returning a truncated message. -/
theorem tcp_framing (d extra stream sched1 sched2 : List Nat)
    (hd : d.length < 65536)
    (hshort : stream.length < 2 + (stream.getD 0 0 + 256 * stream.getD 1 0)) :
    sendmsg d = le16 d.length ++ d ∧
    recvmsg sched1 sched2 (sendmsg d ++ extra) = .ok (d, extra) ∧
    recvmsg sched1 sched2 stream = .error () := by
  refine ⟨rfl, ?_, ?_⟩
  · have hstream : sendmsg d ++ extra = le16 d.length ++ (d ++ extra) := by
      rw [sendmsg, List.append_assoc]
    have h1 : recvall sched1 [] (sendmsg d ++ extra) 2 =
        .ok (le16 d.length, d ++ extra) := by
      rw [hstream, recvall_eq (le16 d.length ++ (d ++ extra)).length _ le_rfl,
        if_pos (by simp [le16])]
      simp only [List.length_nil, Nat.sub_zero, List.nil_append]
      rw [show (2 : Nat) = (le16 d.length).length from rfl, List.take_left,
        List.drop_left]
    rw [recvmsg_ok h1]
    have hdec : (le16 d.length).getD 0 0 + 256 * (le16 d.length).getD 1 0 =
        d.length := by
      show d.length % 256 + 256 * (d.length / 256 % 256) = d.length
      omega
    rw [hdec, recvall_eq (d ++ extra).length _ le_rfl, if_pos (by simp)]
    simp only [List.length_nil, Nat.sub_zero, List.nil_append]
    rw [List.take_left, List.drop_left]
  · match stream, hshort with
    | [], _ =>
      exact recvmsg_err (by rw [recvall_eq 0 [] le_rfl, if_neg (by simp)])
    | [a], _ =>
      exact recvmsg_err (by rw [recvall_eq 1 [a] le_rfl, if_neg (by simp)])
    | a :: b :: rest, hs =>
      have h1 : recvall sched1 [] (a :: b :: rest) 2 = .ok ([a, b], rest) := by
        rw [recvall_eq (a :: b :: rest).length _ le_rfl, if_pos (by simp)]
        simp
      rw [recvmsg_ok h1]
      have hsz : ([a, b] : List Nat).getD 0 0 + 256 * ([a, b] : List Nat).getD 1 0 =
          a + 256 * b := rfl
      simp only [List.getD_cons_zero, List.getD_cons_succ, List.length_cons] at hs
      rw [hsz, recvall_eq rest.length _ le_rfl, if_neg (by simp; omega)]

/-- Witness for C6: the framed message `[9, 8, 7]` followed by `[1, 2]`
parses back exactly, and the truncated stream `[3, 0, 1]` (header
promises 3 payload bytes, only 1 arrives) raises `NetworkError`. -/
theorem tcp_framing_witness :
    sendmsg [9, 8, 7] = le16 ([9, 8, 7] : List Nat).length ++ [9, 8, 7] ∧
    recvmsg [5] [5] (sendmsg [9, 8, 7] ++ [1, 2]) = .ok ([9, 8, 7], [1, 2]) ∧
    recvmsg [5] [5] [3, 0, 1] = .error () :=
  tcp_framing [9, 8, 7] [1, 2] [3, 0, 1] [5] [5] (by decide) (by decide)

/-! ## Lemmas about the session engine -/

theorem lookup_dictSet_self (l : List (String × JVal)) (k : String) (v : JVal) :
    List.lookup k (dictSet l k v) = some v := by
  induction l with
  | nil => simp [dictSet, List.lookup]
  | cons p rest ih =>
    obtain ⟨k1, v1⟩ := p
    rw [dictSet]
    by_cases h : k1 = k
    · subst h
      simp [List.lookup]
    · rw [if_neg h]
      have hne : (k == k1) = false := beq_false_of_ne (Ne.symm h)
      simp [List.lookup, hne, ih]

theorem lookup_dictSet_ne (l : List (String × JVal)) (k k' : String) (v : JVal)
    (h : k' ≠ k) : List.lookup k' (dictSet l k v) = List.lookup k' l := by
  induction l with
  | nil =>
    have hne : (k' == k) = false := beq_false_of_ne h
    simp [dictSet, List.lookup, hne]
  | cons p rest ih =>
    obtain ⟨k1, v1⟩ := p
    rw [dictSet]
    by_cases h1 : k1 = k
    · subst h1
      have hne : (k' == k1) = false := beq_false_of_ne h
      simp [List.lookup, hne]
    · rw [if_neg h1]
      simp [List.lookup, ih]

/-- The events of the outer-request step are the prefix plus a single
exchange initiation for the id-stamped request, whatever the outcome. -/
theorem commandOuter_events (st : ClientState) (o : ExchOutcome)
    (rq : List (String × JVal)) (pre : List Event) :
    (commandOuter st o rq pre).events =
      pre ++ [Event.send (dictSet rq idKey (JVal.num (st.nextId : Int)))] := by
  rw [commandOuter]
  cases hr : runCmd o with
  | ok r => rfl
  | error e => cases e <;> rfl

/-- The trace of a `Client.command` call on a session whose socket
attribute is set (open or closed) contains no connect event: the lazy
connect step is skipped. -/
theorem connect_not_mem (hasToken : Bool) (st : ClientState) (clock : ℚ)
    (startOk : Bool) (o1 o2 : ExchOutcome) (req : List (String × JVal))
    (b : Bool) (h : st.sock = some b) :
    Event.connect ∉ (command hasToken st clock startOk o1 o2 req).events := by
  have hcmd : command hasToken st clock startOk o1 o2 req =
      commandSynced hasToken st clock o1 o2 req [] := by
    rw [command, h]
  rw [hcmd, commandSynced]
  by_cases htok : hasToken
  · rw [if_pos htok]
    cases hdiff : st.tsDiff with
    | some d => simp [commandOuter_events]
    | none =>
      cases hr : runCmd o1 with
      | error e => cases e <;> simp
      | ok r =>
        cases hdd : getItem r dataKey with
        | ok dd =>
          cases hts : getItem dd tsKey with
          | ok tsv =>
            cases hn : pyToNum tsv with
            | some x => simp [hdd, hts, hn, commandOuter_events]
            | none => simp [hdd, hts, hn]
          | keyError => simp [hdd, hts]
          | typeError => simp [hdd, hts]
        | keyError => simp [hdd]
        | typeError => simp [hdd]
  · rw [if_neg htok, commandOuter_events]
    simp

/-- Full output of the outer-request step when the exchange succeeds. -/
theorem commandOuter_eq_ok (st : ClientState) (o : ExchOutcome)
    (rq : List (String × JVal)) (pre : List Event) (r : JVal)
    (h : runCmd o = .ok r) :
    commandOuter st o rq pre =
      { result := .ok r,
        state := { st with nextId := st.nextId + 1 },
        request := dictSet rq idKey (JVal.num (st.nextId : Int)),
        events := pre ++
          [Event.send (dictSet rq idKey (JVal.num (st.nextId : Int)))] } := by
  rw [commandOuter, h]

/-- Full output of the outer-request step on a device-rejected response:
the `ProtocolError` propagates with no teardown. -/
theorem commandOuter_eq_protocol (st : ClientState) (o : ExchOutcome)
    (rq : List (String × JVal)) (pre : List Event)
    (h : runCmd o = .error .protocol) :
    commandOuter st o rq pre =
      { result := .error .protocol,
        state := { st with nextId := st.nextId + 1 },
        request := dictSet rq idKey (JVal.num (st.nextId : Int)),
        events := pre ++
          [Event.send (dictSet rq idKey (JVal.num (st.nextId : Int)))] } := by
  rw [commandOuter, h]

/-- Full output of the outer-request step on any other exchange failure:
`_stop` closes the socket and clears the offset before re-raising. -/
theorem commandOuter_eq_generic (st : ClientState) (o : ExchOutcome)
    (rq : List (String × JVal)) (pre : List Event)
    (h : runCmd o = .error .generic) :
    commandOuter st o rq pre =
      { result := .error .generic,
        state := ⟨none, none, st.nextId + 1⟩,
        request := dictSet rq idKey (JVal.num (st.nextId : Int)),
        events := pre ++
          [Event.send (dictSet rq idKey (JVal.num (st.nextId : Int)))] } := by
  rw [commandOuter, h]
  rfl

/-- With no token and a socket attribute present, `command` is just the
outer-request step. -/
theorem command_noToken_eq (st : ClientState) (b : Bool) (clock : ℚ)
    (startOk : Bool) (o1 o2 : ExchOutcome) (req : List (String × JVal))
    (hsock : st.sock = some b) :
    command false st clock startOk o1 o2 req = commandOuter st o1 req [] := by
  have h1 : command false st clock startOk o1 o2 req =
      commandSynced false st clock o1 o2 req [] := by rw [command, hsock]
  rw [h1, commandSynced, if_neg (by simp)]

/-- With a token and a known offset, `command` stamps
`round(clock + offset)` and runs the outer-request step. -/
theorem command_withOffset_eq (st : ClientState) (b : Bool) (d : ℚ)
    (clock : ℚ) (startOk : Bool) (o1 o2 : ExchOutcome)
    (req : List (String × JVal))
    (hsock : st.sock = some b) (hdiff : st.tsDiff = some d) :
    command true st clock startOk o1 o2 req =
      commandOuter st o1
        (dictSet req tsKey (JVal.num (pyRound (clock + d)))) [] := by
  have h1 : command true st clock startOk o1 o2 req =
      commandSynced true st clock o1 o2 req [] := by rw [command, hsock]
  rw [h1]
  simp [commandSynced, hdiff]

/-- With a token and no offset, a successful timestamp query with numeric
`response["data"]["ts"]` stores the offset and stamps the server timestamp
verbatim before the outer-request step. -/
theorem command_sync_eq (st : ClientState) (b : Bool) (clock : ℚ)
    (startOk : Bool) (o1 o2 : ExchOutcome) (req : List (String × JVal))
    (r dd tsv : JVal) (x : ℚ)
    (hsock : st.sock = some b) (hdiff : st.tsDiff = none)
    (hr : runCmd o1 = .ok r) (hdd : getItem r dataKey = .ok dd)
    (hts : getItem dd tsKey = .ok tsv) (hn : pyToNum tsv = some x) :
    command true st clock startOk o1 o2 req =
      commandOuter
        { sock := st.sock, tsDiff := some (x - clock), nextId := st.nextId + 1 }
        o2 (dictSet req tsKey tsv) [Event.send (tsRequest st.nextId)] := by
  have h1 : command true st clock startOk o1 o2 req =
      commandSynced true st clock o1 o2 req [] := by rw [command, hsock]
  rw [h1]
  simp [commandSynced, hdiff, hr, hdd, hts, hn]

/-- With a token and no offset, a `ProtocolError` on the internal
timestamp query propagates without teardown: the socket and the (still
unset) offset are untouched, the caller's request dict is untouched. -/
theorem command_sync_protocol_eq (st : ClientState) (b : Bool) (clock : ℚ)
    (startOk : Bool) (o1 o2 : ExchOutcome) (req : List (String × JVal))
    (hsock : st.sock = some b) (hdiff : st.tsDiff = none)
    (hr : runCmd o1 = .error .protocol) :
    command true st clock startOk o1 o2 req =
      { result := .error .protocol,
        state := { st with nextId := st.nextId + 1 },
        request := req,
        events := [Event.send (tsRequest st.nextId)] } := by
  have h1 : command true st clock startOk o1 o2 req =
      commandSynced true st clock o1 o2 req [] := by rw [command, hsock]
  rw [h1]
  simp [commandSynced, hdiff, hr]

/-- With a token and no offset, any other failure of the internal
timestamp query tears the session down. -/
theorem command_sync_generic_eq (st : ClientState) (b : Bool) (clock : ℚ)
    (startOk : Bool) (o1 o2 : ExchOutcome) (req : List (String × JVal))
    (hsock : st.sock = some b) (hdiff : st.tsDiff = none)
    (hr : runCmd o1 = .error .generic) :
    command true st clock startOk o1 o2 req =
      { result := .error .generic,
        state := ⟨none, none, st.nextId + 1⟩,
        request := req,
        events := [Event.send (tsRequest st.nextId)] } := by
  have h1 : command true st clock startOk o1 o2 req =
      commandSynced true st clock o1 o2 req [] := by rw [command, hsock]
  rw [h1]
  simp [commandSynced, hdiff, hr, stopClient]

/-- A failed lazy connect tears the session down before anything is sent. -/
theorem command_startFail_eq (hasToken : Bool) (st : ClientState) (clock : ℚ)
    (o1 o2 : ExchOutcome) (req : List (String × JVal))
    (hsock : st.sock = none) :
    command hasToken st clock false o1 o2 req =
      { result := .error .generic,
        state := ⟨none, none, st.nextId⟩,
        request := req,
        events := [Event.connect] } := by
  rw [command, hsock]
  rfl

/-- The request dict after the outer-request step carries the fresh id,
whatever the exchange outcome. -/
theorem commandOuter_request (st : ClientState) (o : ExchOutcome)
    (rq : List (String × JVal)) (pre : List Event) :
    (commandOuter st o rq pre).request =
      dictSet rq idKey (JVal.num (st.nextId : Int)) := by
  rw [commandOuter]
  cases hr : runCmd o with
  | ok r => rfl
  | error e => cases e <;> rfl

/-- C4: When a shared secret is configured and no clock offset is
known, `Client.command` performs exactly one internal timestamp-query
exchange (`cmd` 9) before the outer request is sent, stores
`offset = remote_ts - clock` (visible in the final state whenever the
outer exchange does not tear the session down), and attaches the
server-reported timestamp `tsv` verbatim as the outer request's `ts`;
when an offset `d` is already known (second scenario, over its own
session/arguments), it attaches `round(clock2 + d)` instead and performs
no timestamp query. -/
theorem command_timestamp_handshake (st : ClientState) (b : Bool) (clock : ℚ)
    (startOk : Bool) (o1 o2 : ExchOutcome) (req : List (String × JVal))
    (r dd tsv : JVal) (x : ℚ)
    (st2 : ClientState) (b2 : Bool) (d clock2 : ℚ) (startOk2 : Bool)
    (p1 p2 : ExchOutcome) (req2 : List (String × JVal))
    (hsock : st.sock = some b) (hdiff : st.tsDiff = none)
    (hr : runCmd o1 = .ok r) (hdd : getItem r dataKey = .ok dd)
    (hts : getItem dd tsKey = .ok tsv) (hn : pyToNum tsv = some x)
    (hsock2 : st2.sock = some b2) (hdiff2 : st2.tsDiff = some d) :
    (command true st clock startOk o1 o2 req).events =
      [Event.send (tsRequest st.nextId),
       Event.send (dictSet (dictSet req tsKey tsv) idKey
         (JVal.num ((st.nextId + 1 : Nat) : Int)))] ∧
    List.lookup tsKey (command true st clock startOk o1 o2 req).request =
      some tsv ∧
    (runCmd o2 ≠ .error .generic →
      (command true st clock startOk o1 o2 req).state.tsDiff =
        some (x - clock)) ∧
    (command true st2 clock2 startOk2 p1 p2 req2).events =
      [Event.send (dictSet (dictSet req2 tsKey
          (JVal.num (pyRound (clock2 + d)))) idKey
        (JVal.num (st2.nextId : Int)))] ∧
    List.lookup tsKey (command true st2 clock2 startOk2 p1 p2 req2).request =
      some (JVal.num (pyRound (clock2 + d))) := by
  have hsync := command_sync_eq st b clock startOk o1 o2 req r dd tsv x
    hsock hdiff hr hdd hts hn
  have hoff := command_withOffset_eq st2 b2 d clock2 startOk2 p1 p2 req2
    hsock2 hdiff2
  have hne : tsKey ≠ idKey := by decide
  refine ⟨?_, ?_, ?_, ?_, ?_⟩
  · rw [hsync, commandOuter_events]
    rfl
  · rw [hsync]
    cases ho2 : runCmd o2 with
    | ok r2 =>
      rw [commandOuter_eq_ok _ _ _ _ _ ho2]
      rw [lookup_dictSet_ne _ _ _ _ hne, lookup_dictSet_self]
    | error e =>
      cases e with
      | protocol =>
        rw [commandOuter_eq_protocol _ _ _ _ ho2]
        rw [lookup_dictSet_ne _ _ _ _ hne, lookup_dictSet_self]
      | generic =>
        rw [commandOuter_eq_generic _ _ _ _ ho2]
        rw [lookup_dictSet_ne _ _ _ _ hne, lookup_dictSet_self]
  · intro ho2
    rw [hsync]
    cases ho : runCmd o2 with
    | ok r2 => rw [commandOuter_eq_ok _ _ _ _ _ ho]
    | error e =>
      cases e with
      | protocol => rw [commandOuter_eq_protocol _ _ _ _ ho]
      | generic => exact absurd ho ho2
  · rw [hoff, commandOuter_events]
    rfl
  · rw [hoff]
    cases hp1 : runCmd p1 with
    | ok r2 =>
      rw [commandOuter_eq_ok _ _ _ _ _ hp1]
      rw [lookup_dictSet_ne _ _ _ _ hne, lookup_dictSet_self]
    | error e =>
      cases e with
      | protocol =>
        rw [commandOuter_eq_protocol _ _ _ _ hp1]
        rw [lookup_dictSet_ne _ _ _ _ hne, lookup_dictSet_self]
      | generic =>
        rw [commandOuter_eq_generic _ _ _ _ hp1]
        rw [lookup_dictSet_ne _ _ _ _ hne, lookup_dictSet_self]

/-- Witness for C4: a synced-from-scratch call (server timestamp 250 read
at local clock 100) and an offset-known call (offset 150, local clock
107). -/
theorem command_timestamp_handshake_witness :
    (command true ⟨some true, none, 10⟩ 100 true
        (ExchOutcome.resp (JVal.obj [(dataKey,
          JVal.obj [(tsKey, JVal.num 250)])]))
        (ExchOutcome.resp (JVal.obj [])) []).events =
      [Event.send (tsRequest 10),
       Event.send (dictSet (dictSet [] tsKey (JVal.num 250)) idKey
         (JVal.num ((11 : Nat) : Int)))] ∧
    List.lookup tsKey (command true ⟨some true, none, 10⟩ 100 true
        (ExchOutcome.resp (JVal.obj [(dataKey,
          JVal.obj [(tsKey, JVal.num 250)])]))
        (ExchOutcome.resp (JVal.obj [])) []).request =
      some (JVal.num 250) ∧
    (runCmd (ExchOutcome.resp (JVal.obj [])) ≠ .error .generic →
      (command true ⟨some true, none, 10⟩ 100 true
        (ExchOutcome.resp (JVal.obj [(dataKey,
          JVal.obj [(tsKey, JVal.num 250)])]))
        (ExchOutcome.resp (JVal.obj [])) []).state.tsDiff =
        some ((250 : ℚ) - 100)) ∧
    (command true ⟨some true, some 150, 3⟩ 107 true
        (ExchOutcome.resp (JVal.obj [])) ExchOutcome.exn []).events =
      [Event.send (dictSet (dictSet [] tsKey
          (JVal.num (pyRound ((107 : ℚ) + 150)))) idKey
        (JVal.num ((3 : Nat) : Int)))] ∧
    List.lookup tsKey (command true ⟨some true, some 150, 3⟩ 107 true
        (ExchOutcome.resp (JVal.obj [])) ExchOutcome.exn []).request =
      some (JVal.num (pyRound ((107 : ℚ) + 150))) :=
  command_timestamp_handshake ⟨some true, none, 10⟩ true 100 true
    (ExchOutcome.resp (JVal.obj [(dataKey, JVal.obj [(tsKey, JVal.num 250)])]))
    (ExchOutcome.resp (JVal.obj [])) []
    (JVal.obj [(dataKey, JVal.obj [(tsKey, JVal.num 250)])])
    (JVal.obj [(tsKey, JVal.num 250)]) (JVal.num 250) 250
    ⟨some true, some 150, 3⟩ true 150 107 true
    (ExchOutcome.resp (JVal.obj [])) ExchOutcome.exn []
    rfl rfl rfl rfl rfl rfl rfl rfl

/-- C5: A matched response with a truthy `error` value makes
`Client.command` raise `ProtocolError` without tearing down the session —
the socket attribute keeps its open socket, the clock offset is preserved,
and a subsequent call performs no reconnect (scenarios 1-3: no token;
offset known; `ProtocolError` on the internal ts query).  Any other
failure during the exchange closes the connection, clears the clock
offset and propagates the exception (scenarios 4-8: exchange exception
with no token, with a known offset, on the internal ts query, on the outer
request right after a successful sync, and a failed connect). -/
theorem command_error_policy
    (hasTok' : Bool) (clock' : ℚ) (startOk' : Bool) (q1 q2 : ExchOutcome)
    (req' : List (String × JVal))
    (stA : ClientState) (bA : Bool) (clockA : ℚ) (startOkA : Bool)
    (oA1 oA2 : ExchOutcome) (reqA : List (String × JVal))
    (hsockA : stA.sock = some bA) (hpA : runCmd oA1 = .error .protocol)
    (stB : ClientState) (bB : Bool) (dB clockB : ℚ) (startOkB : Bool)
    (oB1 oB2 : ExchOutcome) (reqB : List (String × JVal))
    (hsockB : stB.sock = some bB) (hdiffB : stB.tsDiff = some dB)
    (hpB : runCmd oB1 = .error .protocol)
    (stC : ClientState) (bC : Bool) (clockC : ℚ) (startOkC : Bool)
    (oC1 oC2 : ExchOutcome) (reqC : List (String × JVal))
    (hsockC : stC.sock = some bC) (hdiffC : stC.tsDiff = none)
    (hpC : runCmd oC1 = .error .protocol)
    (stD : ClientState) (bD : Bool) (clockD : ℚ) (startOkD : Bool)
    (oD2 : ExchOutcome) (reqD : List (String × JVal))
    (hsockD : stD.sock = some bD)
    (stE : ClientState) (bE : Bool) (dE clockE : ℚ) (startOkE : Bool)
    (oE2 : ExchOutcome) (reqE : List (String × JVal))
    (hsockE : stE.sock = some bE) (hdiffE : stE.tsDiff = some dE)
    (stF : ClientState) (bF : Bool) (clockF : ℚ) (startOkF : Bool)
    (oF2 : ExchOutcome) (reqF : List (String × JVal))
    (hsockF : stF.sock = some bF) (hdiffF : stF.tsDiff = none)
    (stG : ClientState) (bG : Bool) (clockG : ℚ) (startOkG : Bool)
    (oG1 : ExchOutcome) (reqG : List (String × JVal))
    (rG ddG tsvG : JVal) (xG : ℚ)
    (hsockG : stG.sock = some bG) (hdiffG : stG.tsDiff = none)
    (hrG : runCmd oG1 = .ok rG) (hddG : getItem rG dataKey = .ok ddG)
    (htsG : getItem ddG tsKey = .ok tsvG) (hnG : pyToNum tsvG = some xG)
    (stH : ClientState) (hasTokH : Bool) (clockH : ℚ) (oH1 oH2 : ExchOutcome)
    (reqH : List (String × JVal)) (hsockH : stH.sock = none) :
    ((command false stA clockA startOkA oA1 oA2 reqA).result =
        .error .protocol ∧
      (command false stA clockA startOkA oA1 oA2 reqA).state.sock = some bA ∧
      (command false stA clockA startOkA oA1 oA2 reqA).state.tsDiff =
        stA.tsDiff ∧
      Event.connect ∉ (command hasTok'
        (command false stA clockA startOkA oA1 oA2 reqA).state
        clock' startOk' q1 q2 req').events) ∧
    ((command true stB clockB startOkB oB1 oB2 reqB).result =
        .error .protocol ∧
      (command true stB clockB startOkB oB1 oB2 reqB).state.sock = some bB ∧
      (command true stB clockB startOkB oB1 oB2 reqB).state.tsDiff =
        some dB ∧
      Event.connect ∉ (command hasTok'
        (command true stB clockB startOkB oB1 oB2 reqB).state
        clock' startOk' q1 q2 req').events) ∧
    ((command true stC clockC startOkC oC1 oC2 reqC).result =
        .error .protocol ∧
      (command true stC clockC startOkC oC1 oC2 reqC).state.sock = some bC ∧
      (command true stC clockC startOkC oC1 oC2 reqC).state.tsDiff = none ∧
      Event.connect ∉ (command hasTok'
        (command true stC clockC startOkC oC1 oC2 reqC).state
        clock' startOk' q1 q2 req').events) ∧
    ((command false stD clockD startOkD ExchOutcome.exn oD2 reqD).result =
        .error .generic ∧
      (command false stD clockD startOkD ExchOutcome.exn oD2 reqD).state =
        ⟨none, none, stD.nextId + 1⟩) ∧
    ((command true stE clockE startOkE ExchOutcome.exn oE2 reqE).result =
        .error .generic ∧
      (command true stE clockE startOkE ExchOutcome.exn oE2 reqE).state =
        ⟨none, none, stE.nextId + 1⟩) ∧
    ((command true stF clockF startOkF ExchOutcome.exn oF2 reqF).result =
        .error .generic ∧
      (command true stF clockF startOkF ExchOutcome.exn oF2 reqF).state =
        ⟨none, none, stF.nextId + 1⟩) ∧
    ((command true stG clockG startOkG oG1 ExchOutcome.exn reqG).result =
        .error .generic ∧
      (command true stG clockG startOkG oG1 ExchOutcome.exn reqG).state =
        ⟨none, none, stG.nextId + 2⟩) ∧
    (command hasTokH stH clockH false oH1 oH2 reqH =
      { result := .error .generic,
        state := ⟨none, none, stH.nextId⟩,
        request := reqH,
        events := [Event.connect] }) := by
  have hA := command_noToken_eq stA bA clockA startOkA oA1 oA2 reqA hsockA
  have hB := command_withOffset_eq stB bB dB clockB startOkB oB1 oB2 reqB
    hsockB hdiffB
  have hC := command_sync_protocol_eq stC bC clockC startOkC oC1 oC2 reqC
    hsockC hdiffC hpC
  have hD := command_noToken_eq stD bD clockD startOkD ExchOutcome.exn oD2
    reqD hsockD
  have hE := command_withOffset_eq stE bE dE clockE startOkE ExchOutcome.exn
    oE2 reqE hsockE hdiffE
  have hF := command_sync_generic_eq stF bF clockF startOkF ExchOutcome.exn
    oF2 reqF hsockF hdiffF rfl
  have hG := command_sync_eq stG bG clockG startOkG oG1 ExchOutcome.exn reqG
    rG ddG tsvG xG hsockG hdiffG hrG hddG htsG hnG
  refine ⟨⟨?_, ?_, ?_, ?_⟩, ⟨?_, ?_, ?_, ?_⟩, ⟨?_, ?_, ?_, ?_⟩,
    ⟨?_, ?_⟩, ⟨?_, ?_⟩, ⟨?_, ?_⟩, ⟨?_, ?_⟩, ?_⟩
  · rw [hA, commandOuter_eq_protocol _ _ _ _ hpA]
  · rw [hA, commandOuter_eq_protocol _ _ _ _ hpA]
    exact hsockA
  · rw [hA, commandOuter_eq_protocol _ _ _ _ hpA]
  · refine connect_not_mem hasTok' _ clock' startOk' q1 q2 req' bA ?_
    rw [hA, commandOuter_eq_protocol _ _ _ _ hpA]
    exact hsockA
  · rw [hB, commandOuter_eq_protocol _ _ _ _ hpB]
  · rw [hB, commandOuter_eq_protocol _ _ _ _ hpB]
    exact hsockB
  · rw [hB, commandOuter_eq_protocol _ _ _ _ hpB]
    exact hdiffB
  · refine connect_not_mem hasTok' _ clock' startOk' q1 q2 req' bB ?_
    rw [hB, commandOuter_eq_protocol _ _ _ _ hpB]
    exact hsockB
  · rw [hC]
  · rw [hC]
    exact hsockC
  · rw [hC]
    exact hdiffC
  · refine connect_not_mem hasTok' _ clock' startOk' q1 q2 req' bC ?_
    rw [hC]
    exact hsockC
  · rw [hD, commandOuter_eq_generic _ ExchOutcome.exn _ _ (by rfl)]
  · rw [hD, commandOuter_eq_generic _ ExchOutcome.exn _ _ (by rfl)]
  · rw [hE, commandOuter_eq_generic _ ExchOutcome.exn _ _ (by rfl)]
  · rw [hE, commandOuter_eq_generic _ ExchOutcome.exn _ _ (by rfl)]
  · rw [hF]
  · rw [hF]
  · rw [hG, commandOuter_eq_generic _ ExchOutcome.exn _ _ (by rfl)]
  · rw [hG, commandOuter_eq_generic _ ExchOutcome.exn _ _ (by rfl)]
  · exact command_startFail_eq hasTokH stH clockH oH1 oH2 reqH hsockH

/-- Witness for C5 on concrete sessions: a device-rejected response
(truthy error value 1) in each protocol scenario, an exchange exception
in each teardown scenario, and a failed connect. -/
theorem command_error_policy_witness :
    ((command false ⟨some true, none, 0⟩ 0 true (ExchOutcome.resp (JVal.obj [(errorKey, JVal.num 1)])) ExchOutcome.exn []).result = .error .protocol ∧
      (command false ⟨some true, none, 0⟩ 0 true (ExchOutcome.resp (JVal.obj [(errorKey, JVal.num 1)])) ExchOutcome.exn []).state.sock = some true ∧
      (command false ⟨some true, none, 0⟩ 0 true (ExchOutcome.resp (JVal.obj [(errorKey, JVal.num 1)])) ExchOutcome.exn []).state.tsDiff = none ∧
      Event.connect ∉ (command false (command false ⟨some true, none, 0⟩ 0 true (ExchOutcome.resp (JVal.obj [(errorKey, JVal.num 1)])) ExchOutcome.exn []).state 0 true
        ExchOutcome.exn ExchOutcome.exn []).events) ∧
    ((command true ⟨some true, some 5, 0⟩ 0 true (ExchOutcome.resp (JVal.obj [(errorKey, JVal.num 1)])) ExchOutcome.exn []).result = .error .protocol ∧
      (command true ⟨some true, some 5, 0⟩ 0 true (ExchOutcome.resp (JVal.obj [(errorKey, JVal.num 1)])) ExchOutcome.exn []).state.sock = some true ∧
      (command true ⟨some true, some 5, 0⟩ 0 true (ExchOutcome.resp (JVal.obj [(errorKey, JVal.num 1)])) ExchOutcome.exn []).state.tsDiff = some 5 ∧
      Event.connect ∉ (command false (command true ⟨some true, some 5, 0⟩ 0 true (ExchOutcome.resp (JVal.obj [(errorKey, JVal.num 1)])) ExchOutcome.exn []).state 0 true
        ExchOutcome.exn ExchOutcome.exn []).events) ∧
    ((command true ⟨some true, none, 0⟩ 0 true (ExchOutcome.resp (JVal.obj [(errorKey, JVal.num 1)])) ExchOutcome.exn []).result = .error .protocol ∧
      (command true ⟨some true, none, 0⟩ 0 true (ExchOutcome.resp (JVal.obj [(errorKey, JVal.num 1)])) ExchOutcome.exn []).state.sock = some true ∧
      (command true ⟨some true, none, 0⟩ 0 true (ExchOutcome.resp (JVal.obj [(errorKey, JVal.num 1)])) ExchOutcome.exn []).state.tsDiff = none ∧
      Event.connect ∉ (command false (command true ⟨some true, none, 0⟩ 0 true (ExchOutcome.resp (JVal.obj [(errorKey, JVal.num 1)])) ExchOutcome.exn []).state 0 true
        ExchOutcome.exn ExchOutcome.exn []).events) ∧
    ((command false ⟨some true, none, 0⟩ 0 true ExchOutcome.exn ExchOutcome.exn []).result = .error .generic ∧
      (command false ⟨some true, none, 0⟩ 0 true ExchOutcome.exn ExchOutcome.exn []).state = ⟨none, none, 1⟩) ∧
    ((command true ⟨some true, some 5, 0⟩ 0 true ExchOutcome.exn ExchOutcome.exn []).result = .error .generic ∧
      (command true ⟨some true, some 5, 0⟩ 0 true ExchOutcome.exn ExchOutcome.exn []).state = ⟨none, none, 1⟩) ∧
    ((command true ⟨some true, none, 0⟩ 0 true ExchOutcome.exn ExchOutcome.exn []).result = .error .generic ∧
      (command true ⟨some true, none, 0⟩ 0 true ExchOutcome.exn ExchOutcome.exn []).state = ⟨none, none, 1⟩) ∧
    ((command true ⟨some true, none, 0⟩ 0 true (ExchOutcome.resp (JVal.obj [(dataKey, JVal.obj [(tsKey, JVal.num 250)])])) ExchOutcome.exn []).result = .error .generic ∧
      (command true ⟨some true, none, 0⟩ 0 true (ExchOutcome.resp (JVal.obj [(dataKey, JVal.obj [(tsKey, JVal.num 250)])])) ExchOutcome.exn []).state = ⟨none, none, 2⟩) ∧
    (command false ⟨none, none, 0⟩ 0 false ExchOutcome.exn ExchOutcome.exn [] =
      { result := .error .generic, state := ⟨none, none, 0⟩,
        request := [], events := [Event.connect] }) :=
  command_error_policy false 0 true ExchOutcome.exn ExchOutcome.exn []
    ⟨some true, none, 0⟩ true 0 true (ExchOutcome.resp (JVal.obj [(errorKey, JVal.num 1)])) ExchOutcome.exn [] rfl rfl
    ⟨some true, some 5, 0⟩ true 5 0 true (ExchOutcome.resp (JVal.obj [(errorKey, JVal.num 1)])) ExchOutcome.exn [] rfl rfl rfl
    ⟨some true, none, 0⟩ true 0 true (ExchOutcome.resp (JVal.obj [(errorKey, JVal.num 1)])) ExchOutcome.exn [] rfl rfl rfl
    ⟨some true, none, 0⟩ true 0 true ExchOutcome.exn [] rfl
    ⟨some true, some 5, 0⟩ true 5 0 true ExchOutcome.exn [] rfl rfl
    ⟨some true, none, 0⟩ true 0 true ExchOutcome.exn [] rfl rfl
    ⟨some true, none, 0⟩ true 0 true (ExchOutcome.resp (JVal.obj [(dataKey, JVal.obj [(tsKey, JVal.num 250)])])) []
    (JVal.obj [(dataKey, JVal.obj [(tsKey, JVal.num 250)])])
    (JVal.obj [(tsKey, JVal.num 250)]) (JVal.num 250) 250
    rfl rfl rfl rfl rfl rfl
    ⟨none, none, 0⟩ false 0 ExchOutcome.exn ExchOutcome.exn [] rfl

/-- C10: `Client.command` mutates the caller-supplied request mapping
in place: before serialization it assigns a fresh value (the current `_id`
counter) to the `id` key and, when a shared secret is configured, also a
`ts` value; after the call the caller's dictionary retains these injected
keys, whatever the outcome of the outer exchange.  Scenarios: no token;
token with known offset; token with a completed timestamp sync (where the
assignment precedes the outer exchange, so the keys survive its failure
too). -/
theorem command_mutates_request
    (stA : ClientState) (bA : Bool) (clockA : ℚ) (startOkA : Bool)
    (oA1 oA2 : ExchOutcome) (reqA : List (String × JVal))
    (hsockA : stA.sock = some bA)
    (stB : ClientState) (bB : Bool) (dB clockB : ℚ) (startOkB : Bool)
    (oB1 oB2 : ExchOutcome) (reqB : List (String × JVal))
    (hsockB : stB.sock = some bB) (hdiffB : stB.tsDiff = some dB)
    (stC : ClientState) (bC : Bool) (clockC : ℚ) (startOkC : Bool)
    (oC1 oC2 : ExchOutcome) (reqC : List (String × JVal))
    (rC ddC tsvC : JVal) (xC : ℚ)
    (hsockC : stC.sock = some bC) (hdiffC : stC.tsDiff = none)
    (hrC : runCmd oC1 = .ok rC) (hddC : getItem rC dataKey = .ok ddC)
    (htsC : getItem ddC tsKey = .ok tsvC) (hnC : pyToNum tsvC = some xC) :
    ((command false stA clockA startOkA oA1 oA2 reqA).request =
        dictSet reqA idKey (JVal.num (stA.nextId : Int)) ∧
      List.lookup idKey
          (command false stA clockA startOkA oA1 oA2 reqA).request =
        some (JVal.num (stA.nextId : Int))) ∧
    ((command true stB clockB startOkB oB1 oB2 reqB).request =
        dictSet (dictSet reqB tsKey (JVal.num (pyRound (clockB + dB)))) idKey
          (JVal.num (stB.nextId : Int)) ∧
      List.lookup idKey
          (command true stB clockB startOkB oB1 oB2 reqB).request =
        some (JVal.num (stB.nextId : Int)) ∧
      List.lookup tsKey
          (command true stB clockB startOkB oB1 oB2 reqB).request =
        some (JVal.num (pyRound (clockB + dB)))) ∧
    ((command true stC clockC startOkC oC1 oC2 reqC).request =
        dictSet (dictSet reqC tsKey tsvC) idKey
          (JVal.num ((stC.nextId + 1 : Nat) : Int)) ∧
      List.lookup idKey
          (command true stC clockC startOkC oC1 oC2 reqC).request =
        some (JVal.num ((stC.nextId + 1 : Nat) : Int)) ∧
      List.lookup tsKey
          (command true stC clockC startOkC oC1 oC2 reqC).request =
        some tsvC) := by
  have hne : tsKey ≠ idKey := by decide
  have hA := command_noToken_eq stA bA clockA startOkA oA1 oA2 reqA hsockA
  have hB := command_withOffset_eq stB bB dB clockB startOkB oB1 oB2 reqB
    hsockB hdiffB
  have hC := command_sync_eq stC bC clockC startOkC oC1 oC2 reqC
    rC ddC tsvC xC hsockC hdiffC hrC hddC htsC hnC
  refine ⟨⟨?_, ?_⟩, ⟨?_, ?_, ?_⟩, ⟨?_, ?_, ?_⟩⟩
  · rw [hA, commandOuter_request]
  · rw [hA, commandOuter_request, lookup_dictSet_self]
  · rw [hB, commandOuter_request]
  · rw [hB, commandOuter_request, lookup_dictSet_self]
  · rw [hB, commandOuter_request, lookup_dictSet_ne _ _ _ _ hne,
      lookup_dictSet_self]
  · rw [hC, commandOuter_request]
  · rw [hC, commandOuter_request, lookup_dictSet_self]
  · rw [hC, commandOuter_request, lookup_dictSet_ne _ _ _ _ hne,
      lookup_dictSet_self]

/-- Witness for C10 on concrete sessions and a request dict that already
carries a `cmd` key. -/
theorem command_mutates_request_witness :
    ((command false ⟨some true, none, 4⟩ 0 true
        (ExchOutcome.resp (JVal.obj [])) ExchOutcome.exn
        [(cmdKey, JVal.num 4)]).request =
        dictSet [(cmdKey, JVal.num 4)] idKey (JVal.num ((4 : Nat) : Int)) ∧
      List.lookup idKey (command false ⟨some true, none, 4⟩ 0 true
        (ExchOutcome.resp (JVal.obj [])) ExchOutcome.exn
        [(cmdKey, JVal.num 4)]).request =
        some (JVal.num ((4 : Nat) : Int))) ∧
    ((command true ⟨some true, some 5, 4⟩ 0 true
        (ExchOutcome.resp (JVal.obj [])) ExchOutcome.exn
        [(cmdKey, JVal.num 4)]).request =
        dictSet (dictSet [(cmdKey, JVal.num 4)] tsKey
          (JVal.num (pyRound ((0 : ℚ) + 5)))) idKey
          (JVal.num ((4 : Nat) : Int)) ∧
      List.lookup idKey (command true ⟨some true, some 5, 4⟩ 0 true
        (ExchOutcome.resp (JVal.obj [])) ExchOutcome.exn
        [(cmdKey, JVal.num 4)]).request =
        some (JVal.num ((4 : Nat) : Int)) ∧
      List.lookup tsKey (command true ⟨some true, some 5, 4⟩ 0 true
        (ExchOutcome.resp (JVal.obj [])) ExchOutcome.exn
        [(cmdKey, JVal.num 4)]).request =
        some (JVal.num (pyRound ((0 : ℚ) + 5)))) ∧
    ((command true ⟨some true, none, 4⟩ 0 true
        (ExchOutcome.resp (JVal.obj [(dataKey,
          JVal.obj [(tsKey, JVal.num 250)])])) ExchOutcome.exn
        [(cmdKey, JVal.num 4)]).request =
        dictSet (dictSet [(cmdKey, JVal.num 4)] tsKey (JVal.num 250)) idKey
          (JVal.num ((4 + 1 : Nat) : Int)) ∧
      List.lookup idKey (command true ⟨some true, none, 4⟩ 0 true
        (ExchOutcome.resp (JVal.obj [(dataKey,
          JVal.obj [(tsKey, JVal.num 250)])])) ExchOutcome.exn
        [(cmdKey, JVal.num 4)]).request =
        some (JVal.num ((4 + 1 : Nat) : Int)) ∧
      List.lookup tsKey (command true ⟨some true, none, 4⟩ 0 true
        (ExchOutcome.resp (JVal.obj [(dataKey,
          JVal.obj [(tsKey, JVal.num 250)])])) ExchOutcome.exn
        [(cmdKey, JVal.num 4)]).request =
        some (JVal.num 250)) :=
  command_mutates_request
    ⟨some true, none, 4⟩ true 0 true (ExchOutcome.resp (JVal.obj []))
    ExchOutcome.exn [(cmdKey, JVal.num 4)] rfl
    ⟨some true, some 5, 4⟩ true 5 0 true (ExchOutcome.resp (JVal.obj []))
    ExchOutcome.exn [(cmdKey, JVal.num 4)] rfl rfl
    ⟨some true, none, 4⟩ true 0 true
    (ExchOutcome.resp (JVal.obj [(dataKey, JVal.obj [(tsKey, JVal.num 250)])]))
    ExchOutcome.exn [(cmdKey, JVal.num 4)]
    (JVal.obj [(dataKey, JVal.obj [(tsKey, JVal.num 250)])])
    (JVal.obj [(tsKey, JVal.num 250)]) (JVal.num 250) 250
    rfl rfl rfl rfl rfl rfl

/-- C2 (evaluation at the failing input).  The correlation loop
discards a blob that fails to parse, a parsed object without an `id` key
and a response with a non-matching id, and returns on the matching id; but
a blob that parses to a *non-dict* JSON value (here the array `[]`, sent
while request id 5 is outstanding) raises an uncaught `TypeError` from
`response["id"]`, which escapes the loop: the packet is session-ending
(the exception reaches `Client.command`, which runs `_stop` and re-raises,
as the last conjunct shows on a concrete session). -/
theorem exchange_nondict_uncaught :
    exchangeLoop 5 [Packet.value (JVal.arr [])] = ExchangeResult.uncaught ∧
    exchangeLoop 5 [Packet.invalid,
      Packet.value (JVal.obj []),
      Packet.value (JVal.obj [(idKey, JVal.num 4)]),
      Packet.value (JVal.obj [(idKey, JVal.num 5)])] =
        ExchangeResult.matched (JVal.obj [(idKey, JVal.num 5)]) ∧
    command false ⟨some true, none, 3⟩ 0 true ExchOutcome.exn ExchOutcome.exn [] =
      { result := .error .generic,
        state := ⟨none, none, 4⟩,
        request := [(idKey, JVal.num 3)],
        events := [Event.send [(idKey, JVal.num 3)]] } :=
  ⟨rfl, rfl, rfl⟩

/-- C9 as claimed is false: after `__exit__` on an open session with a
known clock offset, the offset survives the disconnect (violating the
offset-iff-synced invariant) and the socket attribute stays set, so the
next `command` performs no lazy reconnect. -/
theorem exit_reuse_counterexample :
    (exitClient ⟨some true, some 5, 7⟩).tsDiff = some 5 ∧
    (exitClient ⟨some true, some 5, 7⟩).sock = some false ∧
    Event.connect ∉ (command true (exitClient ⟨some true, some 5, 7⟩) 0 true
      ExchOutcome.exn ExchOutcome.exn []).events := by
  refine ⟨rfl, rfl, ?_⟩
  exact connect_not_mem true _ 0 true _ _ [] false rfl

/-- C9 (amended).  Exiting the context-manager block closes the open
socket's file descriptor but leaves the socket attribute set and the
clock-offset and request counter unchanged; consequently the next command
skips the lazy-connect step entirely (no connect event ever occurs), and
the clock-offset can remain set right after the disconnect, so the
offset-iff-synced invariant does not hold at that point; the session only
becomes ready for a lazy reconnect after a later failure runs `_stop`. -/
theorem exit_closes_socket_keeps_state (st : ClientState) (b : Bool)
    (h : st.sock = some b) :
    exitClient st =
      { sock := some false, tsDiff := st.tsDiff, nextId := st.nextId } ∧
    ∀ (hasToken : Bool) (clock : ℚ) (startOk : Bool) (o1 o2 : ExchOutcome)
      (req : List (String × JVal)),
      Event.connect ∉
        (command hasToken (exitClient st) clock startOk o1 o2 req).events := by
  have hexit : exitClient st =
      { sock := some false, tsDiff := st.tsDiff, nextId := st.nextId } := by
    rw [exitClient, h]
  refine ⟨hexit, fun hasToken clock startOk o1 o2 req => ?_⟩
  exact connect_not_mem hasToken _ clock startOk o1 o2 req false
    (by rw [hexit])

/-- Witness for the amended C9 on a concrete open synced session. -/
theorem exit_closes_socket_keeps_state_witness :
    exitClient ⟨some true, some 9, 2⟩ =
      { sock := some false, tsDiff := some 9, nextId := 2 } ∧
    ∀ (hasToken : Bool) (clock : ℚ) (startOk : Bool) (o1 o2 : ExchOutcome)
      (req : List (String × JVal)),
      Event.connect ∉
        (command hasToken (exitClient ⟨some true, some 9, 2⟩) clock startOk
          o1 o2 req).events :=
  exit_closes_socket_keeps_state ⟨some true, some 9, 2⟩ true rfl

/-! ## Lemmas about the command facade -/

theorem except_bind_ok {ε α β : Type} (v : α) (f : α → Except ε β) :
    (Except.ok v >>= f) = f v := rfl

theorem except_bind_error {ε α β : Type} (e : ε) (f : α → Except ε β) :
    ((Except.error e : Except ε α) >>= f) = Except.error e := rfl

/-- Lemma: `set_state` fails exactly when one of the five validated fields
fails. -/
theorem set_state_err_iff (a : SetStateArgs) :
    isErr (set_state a) =
      (isErr (filterLifeField a.filter_life) ||
       isErr (filterTimerField a.filter_timer) ||
       isErr (colorField a.color) ||
       isErr (timerField a.timer) ||
       isErr (scheduleField a.schedule)) := by
  rw [set_state]
  cases h1 : filterLifeField a.filter_life <;>
    cases h2 : filterTimerField a.filter_timer <;>
      cases h3 : colorField a.color <;>
        cases h4 : timerField a.timer <;>
          cases h5 : scheduleField a.schedule <;>
            simp [isErr, h1, h2, h3, h4, h5, except_bind_ok, except_bind_error]

theorem filterLifeField_err (v : Int) (h : v < 0 ∨ 525600 < v) :
    isErr (filterLifeField (some v)) = true := by
  simp only [filterLifeField]
  rw [if_pos h]
  rfl

theorem filterTimerField_err (v : Int) (h : v < 0 ∨ 525600 < v) :
    isErr (filterTimerField (some v)) = true := by
  simp only [filterTimerField]
  rw [if_pos h]
  rfl

theorem timerField_err (v : Int) (h : v < 0 ∨ 1440 < v) :
    isErr (timerField (some v)) = true := by
  simp only [timerField]
  rw [if_pos h]
  rfl

theorem colorField_err (c : List Int)
    (h : c.length ≠ 9 ∨ ∃ v ∈ c, v < 0 ∨ 40 < v) :
    isErr (colorField (some c)) = true := by
  simp only [colorField]
  by_cases hl : c.length = 9
  · rcases h with h | ⟨v, hv, hr⟩
    · exact absurd hl h
    · rw [if_neg (by simp [hl])]
      have hany : c.any (fun v => decide (v < 0) || decide (40 < v)) = true := by
        simp only [List.any_eq_true, Bool.or_eq_true, decide_eq_true_eq]
        exact ⟨v, hv, hr⟩
      rw [if_pos hany]
      rfl
  · rw [if_pos hl]
    rfl

theorem scheduleField_err (s : String)
    (h : s.length ≠ 24 ∨
      ∃ ch ∈ s.data, (ch < zeroChar ∨ fiveChar < ch) ∧ ch ≠ aChar) :
    isErr (scheduleField (some s)) = true := by
  simp only [scheduleField]
  by_cases hl : s.length = 24
  · rcases h with h | ⟨ch, hch, hr, hne⟩
    · exact absurd hl h
    · rw [if_neg (by simp [hl])]
      have hany : s.data.any (fun v =>
          (decide (v < zeroChar) || decide (fiveChar < v)) && v != aChar) =
            true := by
        simp only [List.any_eq_true, Bool.and_eq_true, Bool.or_eq_true,
          decide_eq_true_eq, bne_iff_ne]
        exact ⟨ch, hch, hr, hne⟩
      rw [if_pos hany]
      rfl
  · rw [if_pos hl]
    rfl

/-- C3: `set_state` raises a `ValueError` before any network activity
whenever `filter_life` or `filter_timer` lies outside `[0, 525600]`,
`color` is not a sequence of exactly 9 values each in `[0, 40]`, `timer`
lies outside `[0, 1440]`, or `schedule` is not a 24-character string over
`0`-`5`/`A` — the model then produces no request at all, so nothing
reaches the session engine and the session state is untouched. -/
theorem set_state_validation (a : SetStateArgs)
    (h : (∃ v, a.filter_life = some v ∧ (v < 0 ∨ 525600 < v)) ∨
         (∃ v, a.filter_timer = some v ∧ (v < 0 ∨ 525600 < v)) ∨
         (∃ c, a.color = some c ∧ (c.length ≠ 9 ∨ ∃ v ∈ c, v < 0 ∨ 40 < v)) ∨
         (∃ t, a.timer = some t ∧ (t < 0 ∨ 1440 < t)) ∨
         (∃ s, a.schedule = some s ∧ (s.length ≠ 24 ∨
           ∃ ch ∈ s.data, (ch < zeroChar ∨ fiveChar < ch) ∧ ch ≠ aChar))) :
    isErr (set_state a) = true := by
  rw [set_state_err_iff]
  rcases h with ⟨v, hv, hr⟩ | ⟨v, hv, hr⟩ | ⟨c, hc, hr⟩ | ⟨t, ht, hr⟩ |
    ⟨s, hs, hr⟩
  · simp [hv, filterLifeField_err v hr]
  · simp [hv, filterTimerField_err v hr]
  · simp [hc, colorField_err c hr]
  · simp [ht, timerField_err t hr]
  · simp [hs, scheduleField_err s hr]

/-- Witness for C3: `set_state(filter_life=-1)` is rejected. -/
theorem set_state_validation_witness :
    isErr (set_state { filter_life := some (-1) }) = true :=
  set_state_validation { filter_life := some (-1) }
    (Or.inl ⟨-1, rfl, by decide⟩)

/-! ## Lemmas about the UDP retry loop -/

theorem udpExchangeGo_zero (f : Nat → AttemptOutcome) (data : List Nat)
    (i : Nat) (last : Option Nat) :
    udpExchangeGo f data i 0 last =
      (match last with
       | some t => .timeoutErr t
       | none => .unbound, []) := rfl

/-- One timed-out attempt re-enters the loop with the same serialized
bytes re-sent. -/
theorem udpExchangeGo_timeout (f : Nat → AttemptOutcome) (data : List Nat)
    (i rem : Nat) (last : Option Nat) (t : Nat)
    (hf : f i = .timeout t) :
    udpExchangeGo f data i (rem + 1) last =
      ((udpExchangeGo f data (i + 1) rem (some t)).1,
       data :: (udpExchangeGo f data (i + 1) rem (some t)).2) := by
  rw [udpExchangeGo, hf]

/-- C7: `UdpClient._exchange` wraps each attempt in the per-attempt
deadline `UdpClient.timeout = 2` seconds and retries up to
`UdpClient.retry_count = 3` total attempts; when every attempt times out it
re-sends the identical already-serialized request bytes each time (the
trace is three sends of the same `data`, hence same id and same timestamp,
with no re-synchronization) and finally raises the *last* caught timeout
error. -/
theorem udp_retry_policy (f : Nat → AttemptOutcome) (data : List Nat)
    (g : Nat → Nat) (h : ∀ i, i < 3 → f i = .timeout (g i)) :
    udpExchange f data = (.timeoutErr (g 2), [data, data, data]) ∧
    UdpClient.retry_count = 3 ∧ UdpClient.timeout = 2 := by
  refine ⟨?_, rfl, rfl⟩
  have e0 := h 0 (by omega)
  have e1 := h 1 (by omega)
  have e2 := h 2 (by omega)
  rw [udpExchange]
  show udpExchangeGo f data 0 (2 + 1) none = _
  rw [udpExchangeGo_timeout f data 0 2 none (g 0) e0]
  show ((udpExchangeGo f data 1 (1 + 1) (some (g 0))).1,
    data :: (udpExchangeGo f data 1 (1 + 1) (some (g 0))).2) = _
  rw [udpExchangeGo_timeout f data 1 1 (some (g 0)) (g 1) e1]
  show ((udpExchangeGo f data 2 (0 + 1) (some (g 1))).1,
    data :: data :: (udpExchangeGo f data 2 (0 + 1) (some (g 1))).2) = _
  rw [udpExchangeGo_timeout f data 2 0 (some (g 1)) (g 2) e2,
    udpExchangeGo_zero]

/-- Witness for C7: three straight timeouts on the serialized request
`[1, 2]`. -/
theorem udp_retry_policy_witness :
    udpExchange (fun i => AttemptOutcome.timeout i) [1, 2] =
      (.timeoutErr 2, [[1, 2], [1, 2], [1, 2]]) ∧
    UdpClient.retry_count = 3 ∧ UdpClient.timeout = 2 :=
  udp_retry_policy (fun i => AttemptOutcome.timeout i) [1, 2] (fun i => i)
    (fun i _ => rfl)

end RabbitAir
